import Mathlib

/-!
Verification of the cleansong-proxy request handlers.

Shallow embedding of the two request handlers of the repository:
* `src/api/compress.js` — the FreeConvert job submission / upload / poll /
  download workflow (`compressHandler` below, its poll loop as `runPoll`);
* `src/api/process.js` — the Hugging Face inference handler
  (`processHandler` below).

JavaScript strings are modelled as Lean `String`/`List Char`, bytes as
`Nat` values below 256, thrown exceptions as `Except String`, and the
remote services as oracle records (`CompressWorld`, `ProcessWorld`)
supplying the outcome of each outbound HTTP call.
-/

namespace CleanSongProxy

/-- JavaScript `String.prototype.split` with a single-character separator,
on the character-list representation of the string.
`"a,,b".split(',')` is `["a", "", "b"]`, `"ab".split(',')` is `["ab"]`. -/
def splitChar (sep : Char) : List Char → List (List Char)
  | [] => [[]]
  | c :: rest =>
    if c = sep then [] :: splitChar sep rest
    else
      match splitChar sep rest with
      | [] => [[c]]
      | h :: t => (c :: h) :: t

/-- JavaScript truthiness of an optional string value: `undefined` and the
empty string are falsy (`if (!file)`, `if (!process.env.KEY)`). -/
def jsTruthyStr : Option String → Bool
  | none => false
  | some s => s ≠ ""

/-- JavaScript `s.substring(0, n)` (the truncation used by the process
handler when embedding remote diagnostics in an error message). -/
def jsSubstring0 (s : String) (n : Nat) : String :=
  String.mk (s.data.take n)

/-! ## Base64, as used by `Buffer.from(s, 'base64')` and
`buffer.toString('base64')` in both handlers. -/

/-- The base64 alphabet. -/
def b64Alphabet : List Char :=
  "ABCDEFGHIJKLMNOPQRSTUVWXYZabcdefghijklmnopqrstuvwxyz0123456789+/".data

/-- Character of a sextet value. -/
def b64Char (n : Nat) : Char := b64Alphabet.getD n 'A'

/-- Index scan for the sextet value of a character. -/
def b64IndexAux (c : Char) : List Char → Nat → Option Nat
  | [], _ => none
  | a :: rest, i => if a = c then some i else b64IndexAux c rest (i + 1)

/-- Sextet value of a base64 character (`none` on characters outside the
alphabet, which Node's forgiving decoder skips). -/
def b64val (c : Char) : Option Nat := b64IndexAux c b64Alphabet 0

/-- Bytes to sextets (grouping 3 bytes into 4 sextets, with the standard
trailing-group handling). -/
def encodeChunks : List Nat → List Nat
  | a :: b :: c :: rest =>
    (a / 4) :: ((a % 4) * 16 + b / 16) :: ((b % 16) * 4 + c / 64) :: (c % 64)
      :: encodeChunks rest
  | [a, b] => [a / 4, (a % 4) * 16 + b / 16, (b % 16) * 4]
  | [a] => [a / 4, (a % 4) * 16]
  | [] => []

/-- Sextets to bytes (inverse grouping). -/
def decodeChunks : List Nat → List Nat
  | s0 :: s1 :: s2 :: s3 :: rest =>
    (s0 * 4 + s1 / 16) :: ((s1 % 16) * 16 + s2 / 4) :: ((s2 % 4) * 64 + s3)
      :: decodeChunks rest
  | [s0, s1, s2] => [s0 * 4 + s1 / 16, (s1 % 16) * 16 + s2 / 4]
  | [s0, s1] => [s0 * 4 + s1 / 16]
  | _ => []

/-- Padding characters appended by the encoder, by input length mod 3. -/
def b64pad : Nat → List Char
  | 1 => ['=', '=']
  | 2 => ['=']
  | _ => []

/-- Base64 encoding of a byte list, as a character list. -/
def encodeB64 (bytes : List Nat) : List Char :=
  (encodeChunks bytes).map b64Char ++ b64pad (bytes.length % 3)

/-- `buffer.toString('base64')`. -/
def toBase64 (bytes : List Nat) : String := String.mk (encodeB64 bytes)

/-- `Buffer.from(s, 'base64')`: Node's forgiving decoder — stop at the
first padding character, skip characters outside the alphabet, decode the
sextets. On canonical base64 input this is exact standard decoding. -/
def bufferFromBase64 (s : String) : List Nat :=
  decodeChunks ((s.data.takeWhile (fun c => c ≠ '=')).filterMap b64val)

/-! ## Data model of the FreeConvert compress workflow (`src/api/compress.js`) -/

/-- `job.tasks.import.result.form`: the upload target (URL plus form
parameters) issued at job creation. -/
structure UploadForm where
  url : String
  parameters : List (String × String)
deriving DecidableEq

/-- `job.tasks.import.result` (the `form` key may be absent). -/
structure ImportResult where
  form : Option UploadForm
deriving DecidableEq

/-- `job.tasks.import` (the `result` key may be absent). -/
structure ImportTask where
  result : Option ImportResult
deriving DecidableEq

/-- `job.tasks` (the `import` key may be absent). -/
structure JobTasks where
  importTask : Option ImportTask
deriving DecidableEq

/-- The JSON body returned by the job-creation call. -/
structure Job where
  id : String
  tasks : Option JobTasks
deriving DecidableEq

/-- The chain `job.tasks && job.tasks.import && job.tasks.import.result &&
job.tasks.import.result.form` guarding the upload step. -/
def jobUploadForm (j : Job) : Option UploadForm :=
  match j.tasks with
  | none => none
  | some ts =>
    match ts.importTask with
    | none => none
    | some it =>
      match it.result with
      | none => none
      | some r => r.form

/-- One entry of `exportTask.result.files`. -/
structure TaskFile where
  url : String
deriving DecidableEq

/-- `task.result` of a polled task (the `files` key may be absent). -/
structure TaskResult where
  files : Option (List TaskFile)
deriving DecidableEq

/-- One task of a polled job (`Object.values(pollJob.tasks)` entry). -/
structure PTask where
  operation : String
  result : Option TaskResult
deriving DecidableEq

/-- The JSON body returned by a poll call. -/
structure PollJob where
  status : String
  tasks : List PTask
deriving DecidableEq

/-- Lines 99-102 of `src/api/compress.js`: find the `export/url` task and,
when it has a result with a first file, its URL. -/
def findExportUrl (p : PollJob) : Option String :=
  match p.tasks.find? (fun t => t.operation = "export/url") with
  | none => none
  | some t =>
    match t.result with
    | none => none
    | some r =>
      match r.files with
      | some (f :: _) => some f.url
      | _ => none

instance {ε α : Type} [DecidableEq ε] [DecidableEq α] : DecidableEq (Except ε α) := fun a b =>
  match a, b with
  | .ok x, .ok y =>
    if h : x = y then .isTrue (by rw [h]) else .isFalse (by intro hc; cases hc; exact h rfl)
  | .error x, .error y =>
    if h : x = y then .isTrue (by rw [h]) else .isFalse (by intro hc; cases hc; exact h rfl)
  | .ok _, .error _ => .isFalse (by intro hc; cases hc)
  | .error _, .ok _ => .isFalse (by intro hc; cases hc)

/-- The upload response: HTTP success flag and the body text read on
failure (`uploadRes.text()` itself being fallible). -/
structure UploadResp where
  ok : Bool
  textRes : Except String String
deriving DecidableEq

/-- The varying part of the job-creation request body (`inputBody`): the
three chained operations with their fixed options and the declared input
format. -/
structure InputBody where
  importOperation : String
  compressOperation : String
  compressInput : String
  input_format : String
  output_format : String
  compression_method : String
  target_size_percentage : Nat
  exportOperation : String
deriving DecidableEq

/-- Lines 31-49 of `src/api/compress.js`: the job descriptor sent to the
job-creation endpoint. -/
def mkInputBody (inputFormat : String) : InputBody :=
  { importOperation := "import/upload"
    compressOperation := "compress"
    compressInput := "import"
    input_format := inputFormat
    output_format := "mp3"
    compression_method := "percentage"
    target_size_percentage := 40
    exportOperation := "export/url" }

/-- `(fileType && fileType.split('/')[1]) || "mp3"`. -/
def inputFormatOf (fileType : Option String) : String :=
  match fileType with
  | none => "mp3"
  | some ft =>
    if ft = "" then "mp3"
    else
      match (splitChar '/' ft.data).get? 1 with
      | none => "mp3"
      | some seg => if seg = [] then "mp3" else String.mk seg

/-- The `details` payload attached to some error responses. -/
inductive ErrDetails where
  | jobJson (j : Job)
  | pollJson (p : PollJob)
  | text (s : String)
deriving DecidableEq

/-- A JSON response body of the compress handler: success (`{ file }`) or
error (`{ error, details? }`). -/
inductive RespBody where
  | fileOk (file : String)
  | err (error : String) (details : Option ErrDetails)
deriving DecidableEq

/-- An HTTP response: status code and JSON body. -/
structure HttpResp where
  status : Nat
  body : RespBody
deriving DecidableEq

/-- The remote world consumed by the compress handler: outcome of the
job-creation call, of the multipart upload, of each poll (by attempt
index), and of the result download. `Except.error e` models a thrown
exception with message `e` (transport failure or body-read failure). -/
structure CompressWorld where
  createJob : InputBody → Except String Job
  upload : String → List (String × String) → List Nat → String → Except String UploadResp
  poll : String → Nat → Except String PollJob
  download : String → Except String (List Nat)

/-- The fixed 3000 ms sleep before each poll (`setTimeout(r, 3000)`). -/
def pollIntervalMs : Nat := 3000

/-- Outcome of the poll loop: normal exit of the `while` (with the final
`exportUrl`, number of poll calls performed and milliseconds slept), or an
early `return` from inside it carrying a response. -/
inductive LoopResult where
  | finished (exportUrl : String) (polls : Nat) (sleptMs : Nat)
  | errored (resp : HttpResp) (polls : Nat) (sleptMs : Nat)
deriving DecidableEq

/-- Number of poll calls performed. -/
def LoopResult.polls : LoopResult → Nat
  | .finished _ p _ => p
  | .errored _ p _ => p

/-- Lines 90-107 of `src/api/compress.js`: the bounded poll loop
`while (status !== 'completed' && pollCount < 30)`.  `fuel` counts the
remaining attempt budget (`30 - pollCount`; the handler starts the loop
with fuel 30 and `pollCount = 0`), so the recursion is structural and the
loop exits exactly when the status is `completed` or the budget is spent.
Each iteration sleeps 3000 ms, fetches the job, and either records the
export URL (status `completed`), returns the `Compression failed` response
(status `failed`), or continues. -/
def runPoll (w : CompressWorld) (jobId : String) :
    Nat → String → String → Nat → Nat → LoopResult
  | 0, _, exportUrl, pollCount, sleptMs => .finished exportUrl pollCount sleptMs
  | fuel + 1, status, exportUrl, pollCount, sleptMs =>
    if status = "completed" then .finished exportUrl pollCount sleptMs
    else
      match w.poll jobId pollCount with
      | .error e => .errored ⟨500, .err e none⟩ (pollCount + 1) (sleptMs + pollIntervalMs)
      | .ok pollJob =>
        if pollJob.status = "completed" then
          match findExportUrl pollJob with
          | some u =>
            runPoll w jobId fuel pollJob.status u (pollCount + 1) (sleptMs + pollIntervalMs)
          | none =>
            runPoll w jobId fuel pollJob.status exportUrl (pollCount + 1)
              (sleptMs + pollIntervalMs)
        else if pollJob.status = "failed" then
          .errored ⟨500, .err "Compression failed" (some (.pollJson pollJob))⟩
            (pollCount + 1) (sleptMs + pollIntervalMs)
        else
          runPoll w jobId fuel pollJob.status exportUrl (pollCount + 1)
            (sleptMs + pollIntervalMs)

/-- The request seen by the compress handler: HTTP method and the result
of body parsing (`JSON.parse` of the raw body, which may reject). -/
structure ReqBody where
  file : Option String
  fileType : Option String

/-- A request to a handler. -/
structure CompressReq where
  method : String
  bodyParse : Except String ReqBody

/-- Message of the `TypeError` thrown by `Buffer.from(undefined, 'base64')`
when the file string has no comma (`file.split(',')[1]` is `undefined`);
it reaches the handler's outer `catch`. -/
def bufferFromUndefinedMsg : String :=
  "The first argument must be of type string or an instance of Buffer, ArrayBuffer, or Array or an Array-like Object. Received undefined"

/-- `src/api/compress.js`, `handler`: method check, body parse, input and
credential checks, job creation, decode and upload, poll loop, download,
re-encode.  Every `throw` routes to the outer `catch`, which responds
`500 { error: err.message }`. -/
def compressHandler (req : CompressReq) (apiKey : Option String)
    (world : CompressWorld) : HttpResp :=
  if req.method ≠ "POST" then ⟨405, .err "Method not allowed" none⟩
  else
    match req.bodyParse with
    | .error e => ⟨500, .err e none⟩
    | .ok body =>
      if ¬ jsTruthyStr body.file then ⟨400, .err "No file provided" none⟩
      else if ¬ jsTruthyStr apiKey then
        ⟨500, .err "Missing FREECONVERT_API_KEY env variable" none⟩
      else
        let file := body.file.getD ""
        let inputFormat := inputFormatOf body.fileType
        match world.createJob (mkInputBody inputFormat) with
        | .error e => ⟨500, .err e none⟩
        | .ok job =>
          match jobUploadForm job with
          | none => ⟨500, .err "Failed to create FreeConvert job" (some (.jobJson job))⟩
          | some form =>
            match (splitChar ',' file.data).get? 1 with
            | none => ⟨500, .err bufferFromUndefinedMsg none⟩
            | some base64Data =>
              let buffer := bufferFromBase64 (String.mk base64Data)
              match world.upload form.url form.parameters buffer
                  ("audio." ++ inputFormat) with
              | .error e => ⟨500, .err e none⟩
              | .ok uploadRes =>
                if ¬ uploadRes.ok then
                  match uploadRes.textRes with
                  | .error e => ⟨500, .err e none⟩
                  | .ok errText =>
                    ⟨500, .err "Failed to upload file to FreeConvert" (some (.text errText))⟩
                else
                  match runPoll world job.id 30 "" "" 0 0 with
                  | .errored resp _ _ => resp
                  | .finished exportUrl _ _ =>
                    if exportUrl = "" then ⟨500, .err "No export URL found" none⟩
                    else
                      match world.download exportUrl with
                      | .error e => ⟨500, .err e none⟩
                      | .ok bytes =>
                        ⟨200, .fileOk ("data:audio/mp3;base64," ++ toBase64 bytes)⟩

/-! ## Data model of the inference handler (`src/api/process.js`) -/

/-- A JavaScript value as handled by the process handler's response
parsing: `null`/`undefined`, a string, or an array. -/
inductive GValue where
  | null
  | str (s : String)
  | arr (xs : List GValue)

/-- JavaScript truthiness of a `GValue`. -/
def GValue.truthy : GValue → Bool
  | .null => false
  | .str s => s ≠ ""
  | .arr _ => true

/-- `a || b` on JavaScript values. -/
def jsOr (a b : GValue) : GValue := if a.truthy then a else b

/-- `JSON.stringify` on the modelled values (escaping elided: only the
shape and length of the rendering matter here). -/
def stringifyG : GValue → String
  | .null => "null"
  | .str s => "\"" ++ s ++ "\""
  | .arr xs => "[" ++ joinStringified xs ++ "]"
where
  /-- Comma-joined renderings of the array elements. -/
  joinStringified : List GValue → String
  | [] => ""
  | [x] => stringifyG x
  | x :: y :: rest => stringifyG x ++ "," ++ joinStringified (y :: rest)

/-- A JSON response body of the process handler: an error, a parsed
success (`{ original, cleaned, audio }`), or the fallback mock body
returned with status 200 when the inference call fails. -/
inductive ProcRespBody where
  | err (error : String)
  | ok (original cleaned audio : GValue)
  | fallback (original cleaned : String) (audio : GValue) (error note : String)

/-- An HTTP response of the process handler. -/
structure ProcResp where
  status : Nat
  body : ProcRespBody

/-- The remote world consumed by the process handler: the outcome of the
Gradio inference call on the decoded audio bytes.  `Except.error e` models
any throw inside the call block (connect failure, predict failure, wrapped
as `Gradio client failed: ...`); `Except.ok v` models `result.data`. -/
structure ProcessWorld where
  gradioCall : List Nat → Except String GValue

/-- The request seen by the process handler. -/
structure ProcessReq where
  method : String
  bodyParse : Except String (Option String)

/-- The fixed `original`/`cleaned` text of the fallback mock response. -/
def fallbackMsg : String :=
  "The CleanSong API is not available. This is a fallback response showing that the audio compression is working correctly."

/-- The fixed `note` field of the fallback mock response. -/
def fallbackNote : String :=
  "Audio file was successfully compressed and processed, but the CleanSong API is not responding correctly. Check Vercel function logs for detailed error information."

/-- Line 184 of `src/api/process.js`: the error message for an unexpected
response format, embedding the stringified response truncated to 200
characters. -/
def unexpectedMsg (v : GValue) : String :=
  "Unexpected response format from CleanSong API: " ++ jsSubstring0 (stringifyG v) 200 ++ "..."

/-- `src/api/process.js`, `handler`: method check, body parse, input and
credential checks, guarded base64 decode (a decode failure responds 400),
inference call (a failure responds 200 with the fallback mock body), and
response parsing (an array of length at least 2 responds 200, anything
else responds 500 with a truncated rendering). -/
def processHandler (req : ProcessReq) (hfToken : Option String)
    (world : ProcessWorld) : ProcResp :=
  if req.method ≠ "POST" then ⟨405, .err "Method not allowed"⟩
  else
    match req.bodyParse with
    | .error e => ⟨500, .err e⟩
    | .ok file? =>
      if ¬ jsTruthyStr file? then ⟨400, .err "No file provided"⟩
      else if ¬ jsTruthyStr hfToken then
        ⟨500, .err "Missing HF_TOKEN environment variable"⟩
      else
        let file := file?.getD ""
        match (splitChar ',' file.data).get? 1 with
        | none => ⟨400, .err "Invalid file encoding"⟩
        | some base64Audio =>
          let buffer := bufferFromBase64 (String.mk base64Audio)
          match world.gradioCall buffer with
          | .error e => ⟨200, .fallback fallbackMsg fallbackMsg .null e fallbackNote⟩
          | .ok apiResponse =>
            match apiResponse with
            | .arr xs =>
              if xs.length ≥ 2 then
                ⟨200, .ok (jsOr (xs.getD 0 .null) (.str "No original lyrics found"))
                  (jsOr (xs.getD 1 .null) (.str "No cleaned lyrics found"))
                  (jsOr (xs.getD 2 .null) .null)⟩
              else ⟨500, .err (unexpectedMsg apiResponse)⟩
            | _ => ⟨500, .err (unexpectedMsg apiResponse)⟩

/-- Poll attempt `i` returns a job in a non-terminal (looping) status. -/
def nonterminalAt (w : CompressWorld) (jid : String) (i : Nat) : Prop :=
  ∃ pj, w.poll jid i = .ok pj ∧ pj.status ≠ "completed" ∧ pj.status ≠ "failed"

/-! ## Concrete fixtures (mock remote services and requests) -/

/-- An upload target. -/
def okForm : UploadForm := ⟨"https://upload.example", [("key", "v")]⟩

/-- A job-creation response carrying an upload target. -/
def okJob : Job := ⟨"job-1", some ⟨some ⟨some ⟨some okForm⟩⟩⟩⟩

/-- A job-creation response whose `tasks.import.result.form` is absent. -/
def jobNoForm : Job := ⟨"job-2", some ⟨some ⟨some ⟨none⟩⟩⟩⟩

/-- A poll response in a non-terminal status. -/
def processingPJ : PollJob := ⟨"processing", []⟩

/-- A completed poll response with an export URL. -/
def completedPJ : PollJob :=
  ⟨"completed", [⟨"export/url", some ⟨some [⟨"https://dl.example/out.mp3"⟩]⟩⟩]⟩

/-- A completed poll response with no export task. -/
def completedNoUrlPJ : PollJob := ⟨"completed", []⟩

/-- A failed poll response. -/
def failedPJ : PollJob := ⟨"failed", []⟩

/-- A successful upload response. -/
def okUpload : UploadResp := ⟨true, .ok ""⟩

/-- A well-formed compress request. -/
def cReq : CompressReq := ⟨"POST", .ok ⟨some "data:audio/mp3;base64,AAAA", none⟩⟩

/-- A compress request whose file field has no comma (not a data URL). -/
def malformedReq : CompressReq := ⟨"POST", .ok ⟨some "notadataurl", none⟩⟩

/-- A world whose job never leaves `processing`. -/
def mockTimeout : CompressWorld :=
  ⟨fun _ => .ok okJob, fun _ _ _ _ => .ok okUpload, fun _ _ => .ok processingPJ,
   fun _ => .error "download unreachable"⟩

/-- A world whose job completes at once but exposes no export URL. -/
def mockNoExportUrl : CompressWorld :=
  ⟨fun _ => .ok okJob, fun _ _ _ _ => .ok okUpload, fun _ _ => .ok completedNoUrlPJ,
   fun _ => .error "download unreachable"⟩

/-- A world whose job is processing on attempt 1 and completed on attempt 2. -/
def mockCompletesAt2 : CompressWorld :=
  ⟨fun _ => .ok okJob, fun _ _ _ _ => .ok okUpload,
   fun _ i => if i = 0 then .ok processingPJ else .ok completedPJ,
   fun _ => .ok [1, 2, 3]⟩

/-- A world whose job is processing on attempt 1 and failed on attempt 2. -/
def mockFailsAt2 : CompressWorld :=
  ⟨fun _ => .ok okJob, fun _ _ _ _ => .ok okUpload,
   fun _ i => if i = 0 then .ok processingPJ else .ok failedPJ,
   fun _ => .error "download unreachable"⟩

/-- A world whose job creation omits the upload form. -/
def mockNoForm : CompressWorld :=
  ⟨fun _ => .ok jobNoForm, fun _ _ _ _ => .ok okUpload, fun _ _ => .ok processingPJ,
   fun _ => .error "download unreachable"⟩

/-- A world whose upload is rejected with a given remote body text. -/
def uploadFailWorld (errText : String) : CompressWorld :=
  ⟨fun _ => .ok okJob, fun _ _ _ _ => .ok ⟨false, .ok errText⟩,
   fun _ _ => .ok processingPJ, fun _ => .error "download unreachable"⟩

/-- A world that completes at once and serves back the bytes decoded from
a given base64 payload (a byte-identical passthrough of the upload). -/
def passthroughWorld (payload : String) : CompressWorld :=
  ⟨fun _ => .ok okJob, fun _ _ _ _ => .ok okUpload, fun _ _ => .ok completedPJ,
   fun _ => .ok (bufferFromBase64 payload)⟩

/-- A well-formed process request. -/
def pReq : ProcessReq := ⟨"POST", .ok (some "data:audio/wav;base64,AAAA")⟩

/-- A process world whose inference call always throws. -/
def failingGradio : ProcessWorld := ⟨fun _ => .error "Gradio client failed: connect error"⟩

/-- Length of the remote body text embedded in an error response's
`details`, zero when no such text is embedded. -/
def respDetailTextLen (r : HttpResp) : Nat :=
  match r.body with
  | .err _ (some (.text s)) => s.length
  | _ => 0

/-- A world whose job-creation call throws (transport failure). -/
def mockCreateFail : CompressWorld :=
  ⟨fun _ => .error "createJob ECONNREFUSED", fun _ _ _ _ => .ok okUpload,
   fun _ _ => .ok processingPJ, fun _ => .error "download unreachable"⟩

/-- A world whose upload call throws (transport failure). -/
def mockUploadThrow : CompressWorld :=
  ⟨fun _ => .ok okJob, fun _ _ _ _ => .error "upload socket hang up",
   fun _ _ => .ok processingPJ, fun _ => .error "download unreachable"⟩

/-- A world whose poll fetch throws (transport failure) on every
attempt. -/
def mockPollThrow : CompressWorld :=
  ⟨fun _ => .ok okJob, fun _ _ _ _ => .ok okUpload,
   fun _ _ => .error "poll ECONNRESET", fun _ => .error "download unreachable"⟩

/-- A world whose job completes at once but whose download throws
(transport failure). -/
def mockDownloadFail : CompressWorld :=
  ⟨fun _ => .ok okJob, fun _ _ _ _ => .ok okUpload, fun _ _ => .ok completedPJ,
   fun _ => .error "download ECONNRESET"⟩

/-! ## Round-trip properties of the base64 codec -/

example : toBase64 [0, 1, 2] = "AAEC" := by decide
example : bufferFromBase64 "AAEC" = [0, 1, 2] := by decide
example : toBase64 [77] = "TQ==" := by decide
example : bufferFromBase64 "TQ==" = [77] := by decide
example : toBase64 [77, 78] = "TU4=" := by decide
example : bufferFromBase64 "TU4=" = [77, 78] := by decide
example : splitChar ',' "a,,b".data = ["a".data, [], "b".data] := by decide
example : splitChar ',' "ab".data = ["ab".data] := by decide

theorem b64val_b64Char : ∀ n < 64, b64val (b64Char n) = some n := by decide

theorem b64Char_ne_pad : ∀ n < 64, b64Char n ≠ '=' := by decide

theorem b64Char_ne_comma : ∀ n < 64, b64Char n ≠ ',' := by decide

theorem encodeChunks_lt : ∀ l : List Nat, (∀ x ∈ l, x < 256) →
    ∀ s ∈ encodeChunks l, s < 64
  | [], _ => by simp [encodeChunks]
  | [a], h => by
    have ha : a < 256 := h a (by simp)
    simp only [encodeChunks, List.mem_cons, List.not_mem_nil, or_false]
    intro s hs
    rcases hs with rfl | rfl <;> omega
  | [a, b], h => by
    have ha : a < 256 := h a (by simp)
    have hb : b < 256 := h b (by simp)
    simp only [encodeChunks, List.mem_cons, List.not_mem_nil, or_false]
    intro s hs
    rcases hs with rfl | rfl | rfl <;> omega
  | a :: b :: c :: rest, h => by
    have ha : a < 256 := h a (by simp)
    have hb : b < 256 := h b (by simp)
    have hc : c < 256 := h c (by simp)
    have ih := encodeChunks_lt rest (fun x hx => h x (by simp [List.mem_cons, hx]))
    intro s hs
    simp only [encodeChunks, List.mem_cons] at hs
    rcases hs with rfl | rfl | rfl | rfl | hs
    · omega
    · omega
    · omega
    · omega
    · exact ih s hs

theorem decodeChunks_encodeChunks : ∀ l : List Nat, (∀ x ∈ l, x < 256) →
    decodeChunks (encodeChunks l) = l
  | [], _ => by simp [encodeChunks, decodeChunks]
  | [a], h => by
    have ha : a < 256 := h a (by simp)
    simp only [encodeChunks, decodeChunks, List.cons.injEq, and_true]
    omega
  | [a, b], h => by
    have ha : a < 256 := h a (by simp)
    have hb : b < 256 := h b (by simp)
    simp only [encodeChunks, decodeChunks, List.cons.injEq, and_true]
    have h1 : b / 16 < 16 := by omega
    constructor
    · omega
    · omega
  | a :: b :: c :: rest, h => by
    have ha : a < 256 := h a (by simp)
    have hb : b < 256 := h b (by simp)
    have hc : c < 256 := h c (by simp)
    have ih := decodeChunks_encodeChunks rest (fun x hx => h x (by simp [List.mem_cons, hx]))
    simp only [encodeChunks, decodeChunks, List.cons.injEq]
    refine ⟨by omega, by omega, by omega, ih⟩

theorem filterMap_map_b64 : ∀ l : List Nat, (∀ s ∈ l, s < 64) →
    (l.map b64Char).filterMap b64val = l
  | [], _ => by simp
  | s :: rest, h => by
    have hs : s < 64 := h s (by simp)
    have ih := filterMap_map_b64 rest (fun x hx => h x (by simp [hx]))
    simp [List.filterMap_cons, b64val_b64Char s hs, ih]

theorem takeWhile_append_all {α : Type} (p : α → Bool) :
    ∀ xs ys : List α, (∀ x ∈ xs, p x = true) →
      (xs ++ ys).takeWhile p = xs ++ ys.takeWhile p
  | [], ys, _ => by simp
  | x :: xs, ys, h => by
    have hx : p x = true := h x (by simp)
    have ih := takeWhile_append_all p xs ys (fun a ha => h a (by simp [ha]))
    simp [List.takeWhile_cons, hx, ih]

theorem b64pad_takeWhile : ∀ r : Nat, (b64pad r).takeWhile (fun c => c ≠ '=') = []
  | 0 => rfl
  | 1 => rfl
  | 2 => rfl
  | _ + 3 => rfl

/-- Decoding the canonical base64 encoding of a byte list (as the compress
handler's `Buffer.from(-, 'base64')` does) recovers the bytes. -/
theorem bufferFromBase64_toBase64 (bytes : List Nat) (h : ∀ x ∈ bytes, x < 256) :
    bufferFromBase64 (toBase64 bytes) = bytes := by
  have hlt := encodeChunks_lt bytes h
  show decodeChunks
      ((((encodeChunks bytes).map b64Char ++ b64pad (bytes.length % 3)).takeWhile
        (fun c => c ≠ '=')).filterMap b64val) = bytes
  rw [takeWhile_append_all _ _ _ ?side, b64pad_takeWhile, List.append_nil,
    filterMap_map_b64 _ hlt, decodeChunks_encodeChunks bytes h]
  case side =>
    intro c hcmem
    rcases List.mem_map.mp hcmem with ⟨s, hsmem, rfl⟩
    have := b64Char_ne_pad s (hlt s hsmem)
    simp [this]

/-- No comma occurs in a base64 encoding (so `file.split(',')[1]` of a
data URL built from one recovers exactly the payload). -/
theorem comma_not_mem_encodeB64 (bytes : List Nat) (h : ∀ x ∈ bytes, x < 256) :
    ',' ∉ encodeB64 bytes := by
  intro hmem
  unfold encodeB64 at hmem
  rcases List.mem_append.mp hmem with hl | hr
  · rcases List.mem_map.mp hl with ⟨s, hsmem, hs⟩
    exact b64Char_ne_comma s (encodeChunks_lt bytes h s hsmem) hs
  · revert hr
    match bytes.length % 3 with
    | 0 => simp [b64pad]
    | 1 => simp [b64pad]
    | 2 => simp [b64pad]
    | _ + 3 => simp [b64pad]

/-! ## Behaviour of the poll loop -/

theorem runPoll_succ (w : CompressWorld) (jid : String) (fuel : Nat) (s e : String)
    (c m : Nat) :
    runPoll w jid (fuel + 1) s e c m =
      if s = "completed" then .finished e c m
      else
        match w.poll jid c with
        | .error er => .errored ⟨500, .err er none⟩ (c + 1) (m + pollIntervalMs)
        | .ok pollJob =>
          if pollJob.status = "completed" then
            match findExportUrl pollJob with
            | some u => runPoll w jid fuel pollJob.status u (c + 1) (m + pollIntervalMs)
            | none => runPoll w jid fuel pollJob.status e (c + 1) (m + pollIntervalMs)
          else if pollJob.status = "failed" then
            .errored ⟨500, .err "Compression failed" (some (.pollJson pollJob))⟩
              (c + 1) (m + pollIntervalMs)
          else runPoll w jid fuel pollJob.status e (c + 1) (m + pollIntervalMs) := rfl

theorem runPoll_succ_ok (w : CompressWorld) (jid : String) (fuel : Nat) (s e : String)
    (c m : Nat) (pj : PollJob) (hs : s ≠ "completed") (hp : w.poll jid c = .ok pj) :
    runPoll w jid (fuel + 1) s e c m =
      if pj.status = "completed" then
        match findExportUrl pj with
        | some u => runPoll w jid fuel pj.status u (c + 1) (m + pollIntervalMs)
        | none => runPoll w jid fuel pj.status e (c + 1) (m + pollIntervalMs)
      else if pj.status = "failed" then
        .errored ⟨500, .err "Compression failed" (some (.pollJson pj))⟩
          (c + 1) (m + pollIntervalMs)
      else runPoll w jid fuel pj.status e (c + 1) (m + pollIntervalMs) := by
  rw [runPoll_succ, if_neg hs, hp]

theorem runPoll_polls_ge (w : CompressWorld) (jid : String) (fuel : Nat) :
    ∀ (s e : String) (c m : Nat), c ≤ (runPoll w jid fuel s e c m).polls := by
  induction fuel with
  | zero => intro s e c m; simp [runPoll, LoopResult.polls]
  | succ fuel ih =>
    intro s e c m
    rw [runPoll_succ]
    split
    · simp [LoopResult.polls]
    · split
      · simp [LoopResult.polls]
      · split
        · split
          · exact le_trans (Nat.le_succ c) (ih _ _ _ _)
          · exact le_trans (Nat.le_succ c) (ih _ _ _ _)
        · split
          · simp [LoopResult.polls]
          · exact le_trans (Nat.le_succ c) (ih _ _ _ _)

/-- Every early `return` from inside the poll loop carries a 500 response
with an error body. -/
theorem runPoll_errored_shape (w : CompressWorld) (jid : String) (fuel : Nat) :
    ∀ (s e : String) (c m : Nat) (resp : HttpResp) (p q : Nat),
      runPoll w jid fuel s e c m = .errored resp p q →
      ∃ msg d, resp = ⟨500, .err msg d⟩ := by
  induction fuel with
  | zero => intro s e c m resp p q h; simp [runPoll] at h
  | succ fuel ih =>
    intro s e c m resp p q h
    rw [runPoll_succ] at h
    split at h
    · cases h
    · split at h
      · cases h; exact ⟨_, _, rfl⟩
      · split at h
        · split at h
          · exact ih _ _ _ _ _ _ _ h
          · exact ih _ _ _ _ _ _ _ h
        · split at h
          · cases h; exact ⟨_, _, rfl⟩
          · exact ih _ _ _ _ _ _ _ h

/-- The loop never consults a poll attempt beyond the number of poll calls
its result reports: two worlds whose poll oracles agree below that count
(other fields arbitrary) drive the loop to the same result. -/
theorem runPoll_depends (w w' : CompressWorld) (jid : String) (fuel : Nat) :
    ∀ (s e : String) (c m : Nat),
      (∀ i, c ≤ i → i < (runPoll w jid fuel s e c m).polls → w'.poll jid i = w.poll jid i) →
      runPoll w' jid fuel s e c m = runPoll w jid fuel s e c m := by
  induction fuel with
  | zero => intro s e c m _; rfl
  | succ fuel ih =>
    intro s e c m hagree
    by_cases hs : s = "completed"
    · rw [runPoll_succ, runPoll_succ, if_pos hs, if_pos hs]
    · have hge : c + 1 ≤ (runPoll w jid (fuel + 1) s e c m).polls := by
        rw [runPoll_succ, if_neg hs]
        split
        · simp [LoopResult.polls]
        · split
          · split
            · exact runPoll_polls_ge w jid fuel _ _ _ _
            · exact runPoll_polls_ge w jid fuel _ _ _ _
          · split
            · simp [LoopResult.polls]
            · exact runPoll_polls_ge w jid fuel _ _ _ _
      have hcpoll : w'.poll jid c = w.poll jid c :=
        hagree c (le_refl c) (by omega)
      cases hp : w.poll jid c with
      | error er =>
        rw [runPoll_succ, runPoll_succ, if_neg hs, if_neg hs, hp, hcpoll, hp]
      | ok pj =>
        have hstep := runPoll_succ_ok w jid fuel s e c m pj hs hp
        have hstep' := runPoll_succ_ok w' jid fuel s e c m pj hs (hcpoll.trans hp)
        rw [hstep', hstep]
        have hagree1 : ∀ br : LoopResult, runPoll w jid (fuel + 1) s e c m = br →
            ∀ (s₂ e₂ : String) (m₂ : Nat), runPoll w jid fuel s₂ e₂ (c + 1) m₂ = br →
            runPoll w' jid fuel s₂ e₂ (c + 1) m₂ = runPoll w jid fuel s₂ e₂ (c + 1) m₂ := by
          intro br hbr s₂ e₂ m₂ hinner
          apply ih
          intro i hi1 hi2
          apply hagree i (by omega)
          rw [hbr, ← hinner]
          exact hi2
        split
        · split
          · exact hagree1 _ (by rw [hstep]; simp_all) _ _ _ rfl
          · exact hagree1 _ (by rw [hstep]; simp_all) _ _ _ rfl
        · split
          · rfl
          · exact hagree1 _ (by rw [hstep]; simp_all) _ _ _ rfl

/-- Running the loop over `j` consecutive non-terminal polls from a
non-`completed` status consumes `j` attempts (and `j` sleeps) and arrives
at another non-`completed` status, leaving `exportUrl` unchanged. -/
theorem runPoll_skip (w : CompressWorld) (jid : String) :
    ∀ (j fuel : Nat) (s e : String) (c m : Nat), j ≤ fuel → s ≠ "completed" →
      (∀ i, c ≤ i → i < c + j → nonterminalAt w jid i) →
      ∃ s', s' ≠ "completed" ∧
        runPoll w jid fuel s e c m =
          runPoll w jid (fuel - j) s' e (c + j) (m + pollIntervalMs * j) := by
  intro j
  induction j with
  | zero => intro fuel s e c m _ hs _; exact ⟨s, hs, by simp⟩
  | succ j ih =>
    intro fuel s e c m hj hs hnt
    obtain ⟨fuel, rfl⟩ : ∃ f, fuel = f + 1 := ⟨fuel - 1, by omega⟩
    obtain ⟨pj, hp, hnc, hnf⟩ := hnt c (le_refl c) (by omega)
    rw [runPoll_succ_ok w jid fuel s e c m pj hs hp, if_neg hnc, if_neg hnf]
    obtain ⟨s', hs', heq⟩ := ih fuel pj.status e (c + 1) (m + pollIntervalMs) (by omega) hnc
      (fun i h1 h2 => hnt i (by omega) (by omega))
    refine ⟨s', hs', ?_⟩
    rw [heq]
    have h1 : fuel + 1 - (j + 1) = fuel - j := by omega
    have h2 : c + (j + 1) = c + 1 + j := by omega
    have h3 : m + pollIntervalMs * (j + 1) = m + pollIntervalMs + pollIntervalMs * j := by ring
    rw [h1, h2, h3]

/-! ## Behaviour of the compress handler -/

/-- When method, body, credential, job creation and upload all pass, the
handler's response is determined by the poll loop and the download. -/
theorem compressHandler_good (req : CompressReq) (key : Option String)
    (w : CompressWorld) (b : ReqBody) (job : Job) (form : UploadForm)
    (up : UploadResp) (b64 : List Char)
    (hm : req.method = "POST") (hb : req.bodyParse = .ok b)
    (hf : jsTruthyStr b.file = true) (hk : jsTruthyStr key = true)
    (hsplit : (splitChar ',' ((b.file.getD "").data)).get? 1 = some b64)
    (hcreate : w.createJob (mkInputBody (inputFormatOf b.fileType)) = .ok job)
    (hform : jobUploadForm job = some form)
    (hup : w.upload form.url form.parameters (bufferFromBase64 (String.mk b64))
        ("audio." ++ inputFormatOf b.fileType) = .ok up)
    (hok : up.ok = true) :
    compressHandler req key w =
      (match runPoll w job.id 30 "" "" 0 0 with
       | .errored resp _ _ => resp
       | .finished exportUrl _ _ =>
         if exportUrl = "" then ⟨500, .err "No export URL found" none⟩
         else
           match w.download exportUrl with
           | .error e => ⟨500, .err e none⟩
           | .ok bytes => ⟨200, .fileOk ("data:audio/mp3;base64," ++ toBase64 bytes)⟩) := by
  simp only [compressHandler, hm, hb, hf, hk, hsplit, hcreate, hform, hup, hok,
    ne_eq, not_true, not_false_iff, if_false, if_true, Bool.not_eq_true,
    Bool.false_eq_true, ite_false, ite_true]

/-- Every response of the compress handler is either a 200 success whose
file is an `audio/mp3` data URL, or an error body with status 400, 405 or
500. -/
theorem compress_classify (req : CompressReq) (key : Option String) (w : CompressWorld) :
    (∃ s, compressHandler req key w = ⟨200, .fileOk ("data:audio/mp3;base64," ++ s)⟩) ∨
    (∃ msg d st, compressHandler req key w = ⟨st, .err msg d⟩ ∧
      (st = 400 ∨ st = 405 ∨ st = 500)) := by
  unfold compressHandler
  dsimp only
  repeat' split
  all_goals first
    | exact .inl ⟨_, rfl⟩
    | exact .inr ⟨_, _, _, rfl, by simp⟩
    | (rename_i heq
       obtain ⟨msg, d, rfl⟩ := runPoll_errored_shape _ _ 30 _ _ _ _ _ _ _ heq
       exact .inr ⟨msg, d, 500, rfl, by simp⟩)

theorem string_data_append (s t : String) : (s ++ t).data = s.data ++ t.data := by
  rcases s with ⟨sd⟩; rcases t with ⟨td⟩; rfl

theorem splitChar_no_sep : ∀ xs : List Char, ∀ sep : Char, sep ∉ xs →
    splitChar sep xs = [xs]
  | [], _, _ => rfl
  | c :: rest, sep, h => by
    have hc : c ≠ sep := fun hcs => h (hcs ▸ List.mem_cons_self c rest)
    have ih := splitChar_no_sep rest sep (fun hm => h (List.mem_cons_of_mem c hm))
    simp [splitChar, hc, ih]

theorem splitChar_append_sep : ∀ xs ys : List Char, ∀ sep : Char, sep ∉ xs →
    splitChar sep (xs ++ sep :: ys) = xs :: splitChar sep ys
  | [], ys, sep, _ => by simp [splitChar]
  | c :: rest, ys, sep, h => by
    have hc : c ≠ sep := fun hcs => h (hcs ▸ List.mem_cons_self c rest)
    have ih := splitChar_append_sep rest ys sep (fun hm => h (List.mem_cons_of_mem c hm))
    simp only [List.cons_append, splitChar, if_neg hc]
    rw [show rest.append (sep :: ys) = rest ++ sep :: ys from rfl, ih]

theorem runPoll_completed (w : CompressWorld) (jid : String) :
    ∀ (fuel : Nat) (e : String) (c m : Nat),
      runPoll w jid fuel "completed" e c m = .finished e c m
  | 0, _, _, _ => rfl
  | fuel + 1, e, c, m => by rw [runPoll_succ, if_pos rfl]

theorem string_length_append (s t : String) : (s ++ t).length = s.length + t.length := by
  rcases s with ⟨sd⟩; rcases t with ⟨td⟩
  show (sd ++ td).length = sd.length + td.length
  exact List.length_append sd td

theorem runPoll_succ_error (w : CompressWorld) (jid : String) (fuel : Nat)
    (s e : String) (c m : Nat) (er : String)
    (hs : s ≠ "completed") (hp : w.poll jid c = .error er) :
    runPoll w jid (fuel + 1) s e c m =
      .errored ⟨500, .err er none⟩ (c + 1) (m + pollIntervalMs) := by
  rw [runPoll_succ, if_neg hs, hp]

/-- A poll fetch that throws on attempt `k` (after `k-1` non-terminal
polls) stops the loop with the 500 response carrying the thrown
message. -/
theorem runPoll_error_at (w : CompressWorld) (jid : String) (k : Nat) (e : String)
    (hk1 : 1 ≤ k) (hk30 : k ≤ 30)
    (hnt : ∀ i, i < k - 1 → nonterminalAt w jid i)
    (hp : w.poll jid (k - 1) = .error e) :
    runPoll w jid 30 "" "" 0 0 = .errored ⟨500, .err e none⟩ k (pollIntervalMs * k) := by
  obtain ⟨j, rfl⟩ : ∃ j, k = j + 1 := ⟨k - 1, by omega⟩
  have hj : j + 1 - 1 = j := by omega
  rw [hj] at hnt hp
  obtain ⟨s', hs', heq⟩ := runPoll_skip w jid j 30 "" "" 0 0 (by omega) (by decide)
    (fun i _ h2 => hnt i (by omega))
  simp only [Nat.zero_add] at heq
  rw [heq]
  obtain ⟨f, hf30⟩ : ∃ f, 30 - j = f + 1 := ⟨30 - j - 1, by omega⟩
  rw [hf30, runPoll_succ_error w jid f s' "" j (pollIntervalMs * j) e hs' hp]
  congr 1

/-- A `failed` status on attempt `k` (after `k-1` non-terminal polls)
stops the loop with the `Compression failed` response. -/
theorem runPoll_failed_aux (w : CompressWorld) (jid : String) (k : Nat) (pj : PollJob)
    (hk1 : 1 ≤ k) (hk30 : k ≤ 30)
    (hnt : ∀ i, i < k - 1 → nonterminalAt w jid i)
    (hp : w.poll jid (k - 1) = .ok pj) (hfail : pj.status = "failed") :
    runPoll w jid 30 "" "" 0 0 =
      .errored ⟨500, .err "Compression failed" (some (.pollJson pj))⟩ k
        (pollIntervalMs * k) := by
  obtain ⟨j, rfl⟩ : ∃ j, k = j + 1 := ⟨k - 1, by omega⟩
  have hj : j + 1 - 1 = j := by omega
  rw [hj] at hnt hp
  obtain ⟨s', hs', heq⟩ := runPoll_skip w jid j 30 "" "" 0 0 (by omega) (by decide)
    (fun i _ h2 => hnt i (by omega))
  simp only [Nat.zero_add] at heq
  rw [heq]
  obtain ⟨f, hf30⟩ : ∃ f, 30 - j = f + 1 := ⟨30 - j - 1, by omega⟩
  rw [hf30, runPoll_succ_ok w jid f s' "" j (pollIntervalMs * j) pj hs' hp, hfail,
    if_neg (by decide : ¬ ("failed" = "completed")), if_pos rfl]
  congr 1

/-- A `completed` status with an export URL on attempt `N` (after `N-1`
non-terminal polls) finishes the loop with that URL after `N` calls. -/
theorem runPoll_completes_aux (w : CompressWorld) (jid : String) (N : Nat)
    (pj : PollJob) (u : String) (h1 : 1 ≤ N) (h30 : N ≤ 30)
    (hnt : ∀ i, i < N - 1 → nonterminalAt w jid i)
    (hp : w.poll jid (N - 1) = .ok pj) (hc : pj.status = "completed")
    (hu : findExportUrl pj = some u) :
    runPoll w jid 30 "" "" 0 0 = .finished u N (pollIntervalMs * N) := by
  obtain ⟨j, rfl⟩ : ∃ j, N = j + 1 := ⟨N - 1, by omega⟩
  have hj : j + 1 - 1 = j := by omega
  rw [hj] at hnt hp
  obtain ⟨s', hs', heq⟩ := runPoll_skip w jid j 30 "" "" 0 0 (by omega) (by decide)
    (fun i _ h2 => hnt i (by omega))
  simp only [Nat.zero_add] at heq
  rw [heq]
  obtain ⟨f, hf30⟩ : ∃ f, 30 - j = f + 1 := ⟨30 - j - 1, by omega⟩
  rw [hf30, runPoll_succ_ok w jid f s' "" j (pollIntervalMs * j) pj hs' hp, hc,
    if_pos rfl, hu]
  show runPoll w jid f "completed" u (j + 1) (pollIntervalMs * j + pollIntervalMs) = _
  rw [runPoll_completed]
  congr 1

/-! ## Claims -/

/-- C9: For every request (in particular every request carrying a valid
base64 payload), the compress handler terminates with either an HTTP 200
response whose body is an `audio/mp3` data-URL file, or a structured JSON
error body (`{ error, details? }`) with status 400, 405 or 500 — never an
unhandled failure. -/
theorem compress_no_unhandled_failure (req : CompressReq) (key : Option String)
    (w : CompressWorld) :
    (∃ s, compressHandler req key w = ⟨200, .fileOk ("data:audio/mp3;base64," ++ s)⟩) ∨
    (∃ msg d st, compressHandler req key w = ⟨st, .err msg d⟩ ∧
      (st = 400 ∨ st = 405 ∨ st = 500)) :=
  compress_classify req key w

/-- C10: Every successful (HTTP 200) response of the compress handler
carries a file whose MIME prefix is exactly `data:audio/mp3`, and the
request's `fileType` influences the handler only through the declared
input format `inputFormatOf fileType` (used in the job descriptor and the
upload filename), never the response prefix. -/
theorem compress_mime_always_mp3 :
    (∀ req key w f, compressHandler req key w = ⟨200, .fileOk f⟩ →
      ∃ t, f = "data:audio/mp3;base64," ++ t) ∧
    (∀ m file ft₁ ft₂ key w, inputFormatOf ft₁ = inputFormatOf ft₂ →
      compressHandler ⟨m, .ok ⟨file, ft₁⟩⟩ key w =
        compressHandler ⟨m, .ok ⟨file, ft₂⟩⟩ key w) := by
  constructor
  · intro req key w f h
    rcases compress_classify req key w with ⟨s, hs⟩ | ⟨msg, d, st, hs, _⟩
    · have h2 := h.symm.trans hs
      simp only [HttpResp.mk.injEq, RespBody.fileOk.injEq] at h2
      exact ⟨s, h2.2⟩
    · have h2 := h.symm.trans hs
      simp at h2
  · intro m file ft₁ ft₂ key w hft
    unfold compressHandler
    dsimp only
    rw [hft]

/-- Witness for C10 at concrete inputs: a completed run yields the
`audio/mp3` prefix, and two requests differing only in the MIME type of
`fileType` (same subtype) get identical responses. -/
theorem compress_mime_always_mp3_witness :
    (∃ t, "data:audio/mp3;base64," ++ toBase64 [1, 2, 3] = "data:audio/mp3;base64," ++ t) ∧
    inputFormatOf (some "audio/mp3") = inputFormatOf (some "video/mp3") ∧
    compressHandler ⟨"POST", .ok ⟨some "data:audio/mp3;base64,AAAA", some "audio/mp3"⟩⟩
        (some "key") mockCompletesAt2 =
      compressHandler ⟨"POST", .ok ⟨some "data:audio/mp3;base64,AAAA", some "video/mp3"⟩⟩
        (some "key") mockCompletesAt2 :=
  ⟨compress_mime_always_mp3.1 cReq (some "key") mockCompletesAt2 _ (by decide),
   by decide,
   compress_mime_always_mp3.2 "POST" (some "data:audio/mp3;base64,AAAA") (some "audio/mp3")
     (some "video/mp3") (some "key") mockCompletesAt2 (by decide)⟩

/-- C5: When the job-creation response carries no upload target
(`tasks.import.result.form` chain broken), the compress handler responds
`500 Failed to create FreeConvert job` carrying that response, and the
outcome does not depend on the upload, poll or download oracles — no
upload, poll or download call is performed. -/
theorem jobCreation_no_upload (req : CompressReq) (key : Option String)
    (w : CompressWorld) (b : ReqBody) (job : Job)
    (hm : req.method = "POST") (hb : req.bodyParse = .ok b)
    (hf : jsTruthyStr b.file = true) (hk : jsTruthyStr key = true)
    (hcreate : w.createJob (mkInputBody (inputFormatOf b.fileType)) = .ok job)
    (hform : jobUploadForm job = none) :
    compressHandler req key w =
      ⟨500, .err "Failed to create FreeConvert job" (some (.jobJson job))⟩ ∧
    ∀ w' : CompressWorld, w'.createJob = w.createJob →
      compressHandler req key w' = compressHandler req key w := by
  have main : ∀ w₂ : CompressWorld, w₂.createJob = w.createJob →
      compressHandler req key w₂ =
        ⟨500, .err "Failed to create FreeConvert job" (some (.jobJson job))⟩ := by
    intro w₂ hw
    have hc₂ : w₂.createJob (mkInputBody (inputFormatOf b.fileType)) = .ok job := by
      rw [hw]; exact hcreate
    simp only [compressHandler, hm, hb, hf, hk, hc₂, hform, ne_eq, not_true,
      not_false_iff, if_false, if_true, Bool.not_eq_true, Bool.false_eq_true,
      ite_false, ite_true]
  exact ⟨main w rfl, fun w' hw' => (main w' hw').trans (main w rfl).symm⟩

/-- Witness for C5 at a concrete mock whose job-creation response lacks
the upload form. -/
theorem jobCreation_no_upload_witness :
    compressHandler cReq (some "key") mockNoForm =
      ⟨500, .err "Failed to create FreeConvert job" (some (.jobJson jobNoForm))⟩ ∧
    (∀ w' : CompressWorld, w'.createJob = mockNoForm.createJob →
      compressHandler cReq (some "key") w' = compressHandler cReq (some "key") mockNoForm) :=
  jobCreation_no_upload cReq (some "key") mockNoForm
    ⟨some "data:audio/mp3;base64,AAAA", none⟩ jobNoForm rfl rfl (by decide) (by decide)
    rfl rfl

/-- C4: If poll attempts `1 .. k-1` report non-terminal statuses and
attempt `k` (with `k ≤ 30`) reports status `failed`, the poll loop stops
right there with the `500 Compression failed` response carrying the
remote job description, after exactly `k` poll calls; no later poll
attempt is consulted (worlds agreeing on the first `k` attempts drive the
loop identically). -/
theorem poll_failed_stops (w : CompressWorld) (jid : String) (k : Nat) (pj : PollJob)
    (hk1 : 1 ≤ k) (hk30 : k ≤ 30)
    (hnt : ∀ i, i < k - 1 → nonterminalAt w jid i)
    (hp : w.poll jid (k - 1) = .ok pj) (hfail : pj.status = "failed") :
    runPoll w jid 30 "" "" 0 0 =
      .errored ⟨500, .err "Compression failed" (some (.pollJson pj))⟩ k (pollIntervalMs * k) ∧
    ∀ w' : CompressWorld, (∀ i, i < k → w'.poll jid i = w.poll jid i) →
      runPoll w' jid 30 "" "" 0 0 = runPoll w jid 30 "" "" 0 0 := by
  obtain ⟨j, rfl⟩ : ∃ j, k = j + 1 := ⟨k - 1, by omega⟩
  have hj : j + 1 - 1 = j := by omega
  rw [hj] at hnt hp
  have hmain : runPoll w jid 30 "" "" 0 0 =
      .errored ⟨500, .err "Compression failed" (some (.pollJson pj))⟩ (j + 1)
        (pollIntervalMs * (j + 1)) := by
    obtain ⟨s', hs', heq⟩ := runPoll_skip w jid j 30 "" "" 0 0 (by omega) (by decide)
      (fun i h1 h2 => hnt i (by omega))
    simp only [Nat.zero_add] at heq
    rw [heq]
    obtain ⟨f, hf30⟩ : ∃ f, 30 - j = f + 1 := ⟨30 - j - 1, by omega⟩
    rw [hf30, runPoll_succ_ok w jid f s' "" j (pollIntervalMs * j) pj hs' hp, hfail,
      if_neg (by decide : ¬ ("failed" = "completed")), if_pos rfl]
    congr 1
  refine ⟨hmain, ?_⟩
  intro w' hagree
  apply runPoll_depends
  intro i hi1 hi2
  apply hagree
  rw [hmain] at hi2
  simpa [LoopResult.polls] using hi2

/-- Witness for C4: a mock failing on poll attempt 2 stops after exactly
2 calls (6000 ms slept) and ignores later attempts. -/
theorem poll_failed_stops_witness :
    runPoll mockFailsAt2 "job-1" 30 "" "" 0 0 =
      .errored ⟨500, .err "Compression failed" (some (.pollJson failedPJ))⟩ 2
        (pollIntervalMs * 2) ∧
    ∀ w' : CompressWorld, (∀ i, i < 2 → w'.poll "job-1" i = mockFailsAt2.poll "job-1" i) →
      runPoll w' "job-1" 30 "" "" 0 0 = runPoll mockFailsAt2 "job-1" 30 "" "" 0 0 :=
  poll_failed_stops mockFailsAt2 "job-1" 2 failedPJ (by decide) (by decide)
    (fun i hi => ⟨processingPJ, by
      have h0 : i = 0 := by omega
      subst h0; rfl, by decide, by decide⟩)
    (by decide) rfl

/-- C1 counterexample: with a valid request and a failing inference call,
the process handler (lines 141-155 of `src/api/process.js`) responds with
HTTP status 200 — the fallback mock body carrying the error — not 500. -/
theorem process_fallback_200 :
    (processHandler pReq (some "hf-token") failingGradio).status = 200 ∧
    processHandler pReq (some "hf-token") failingGradio =
      ⟨200, .fallback fallbackMsg fallbackMsg .null "Gradio client failed: connect error"
        fallbackNote⟩ ∧
    (processHandler pReq (some "hf-token") failingGradio).status ≠ 500 :=
  ⟨rfl, rfl, by decide⟩

/-- C1 amended: every invocation of the compress handler in which a
remote service call fails responds with an HTTP 500 structured error —
a thrown job-creation call, a thrown upload, a non-success upload
response, a thrown poll fetch, a remote-reported job failure and a
thrown download each yield a `500 { error, details? }` response — and no
compress error body is ever paired with status 200; the process handler,
however, responds HTTP 200 with the fallback mock body (carrying the
error message) whenever the inference call fails. -/
theorem remote_failure_status_split :
    (∀ req key w msg d st, compressHandler req key w = ⟨st, .err msg d⟩ → st ≠ 200) ∧
    (∀ req key w b e, req.method = "POST" → req.bodyParse = .ok b →
      jsTruthyStr b.file = true → jsTruthyStr key = true →
      w.createJob (mkInputBody (inputFormatOf b.fileType)) = .error e →
      compressHandler req key w = ⟨500, .err e none⟩) ∧
    (∀ req key w b job form b64 e, req.method = "POST" → req.bodyParse = .ok b →
      jsTruthyStr b.file = true → jsTruthyStr key = true →
      (splitChar ',' ((b.file.getD "").data)).get? 1 = some b64 →
      w.createJob (mkInputBody (inputFormatOf b.fileType)) = .ok job →
      jobUploadForm job = some form →
      w.upload form.url form.parameters (bufferFromBase64 (String.mk b64))
        ("audio." ++ inputFormatOf b.fileType) = .error e →
      compressHandler req key w = ⟨500, .err e none⟩) ∧
    (∀ req key w b job form b64 errText, req.method = "POST" → req.bodyParse = .ok b →
      jsTruthyStr b.file = true → jsTruthyStr key = true →
      (splitChar ',' ((b.file.getD "").data)).get? 1 = some b64 →
      w.createJob (mkInputBody (inputFormatOf b.fileType)) = .ok job →
      jobUploadForm job = some form →
      w.upload form.url form.parameters (bufferFromBase64 (String.mk b64))
        ("audio." ++ inputFormatOf b.fileType) = .ok ⟨false, .ok errText⟩ →
      compressHandler req key w =
        ⟨500, .err "Failed to upload file to FreeConvert" (some (.text errText))⟩) ∧
    (∀ req key w b job form up b64 k e, req.method = "POST" → req.bodyParse = .ok b →
      jsTruthyStr b.file = true → jsTruthyStr key = true →
      (splitChar ',' ((b.file.getD "").data)).get? 1 = some b64 →
      w.createJob (mkInputBody (inputFormatOf b.fileType)) = .ok job →
      jobUploadForm job = some form →
      w.upload form.url form.parameters (bufferFromBase64 (String.mk b64))
        ("audio." ++ inputFormatOf b.fileType) = .ok up →
      up.ok = true → 1 ≤ k → k ≤ 30 →
      (∀ i, i < k - 1 → nonterminalAt w job.id i) →
      w.poll job.id (k - 1) = .error e →
      compressHandler req key w = ⟨500, .err e none⟩) ∧
    (∀ req key w b job form up b64 k pj, req.method = "POST" → req.bodyParse = .ok b →
      jsTruthyStr b.file = true → jsTruthyStr key = true →
      (splitChar ',' ((b.file.getD "").data)).get? 1 = some b64 →
      w.createJob (mkInputBody (inputFormatOf b.fileType)) = .ok job →
      jobUploadForm job = some form →
      w.upload form.url form.parameters (bufferFromBase64 (String.mk b64))
        ("audio." ++ inputFormatOf b.fileType) = .ok up →
      up.ok = true → 1 ≤ k → k ≤ 30 →
      (∀ i, i < k - 1 → nonterminalAt w job.id i) →
      w.poll job.id (k - 1) = .ok pj → pj.status = "failed" →
      compressHandler req key w =
        ⟨500, .err "Compression failed" (some (.pollJson pj))⟩) ∧
    (∀ req key w b job form up b64 N pj u e, req.method = "POST" → req.bodyParse = .ok b →
      jsTruthyStr b.file = true → jsTruthyStr key = true →
      (splitChar ',' ((b.file.getD "").data)).get? 1 = some b64 →
      w.createJob (mkInputBody (inputFormatOf b.fileType)) = .ok job →
      jobUploadForm job = some form →
      w.upload form.url form.parameters (bufferFromBase64 (String.mk b64))
        ("audio." ++ inputFormatOf b.fileType) = .ok up →
      up.ok = true → 1 ≤ N → N ≤ 30 →
      (∀ i, i < N - 1 → nonterminalAt w job.id i) →
      w.poll job.id (N - 1) = .ok pj → pj.status = "completed" →
      findExportUrl pj = some u → u ≠ "" →
      w.download u = .error e →
      compressHandler req key w = ⟨500, .err e none⟩) ∧
    (∀ req tok w file? b64 e, req.method = "POST" → req.bodyParse = .ok file? →
      jsTruthyStr file? = true → jsTruthyStr tok = true →
      (splitChar ',' ((file?.getD "").data)).get? 1 = some b64 →
      w.gradioCall (bufferFromBase64 (String.mk b64)) = .error e →
      processHandler req tok w =
        ⟨200, .fallback fallbackMsg fallbackMsg .null e fallbackNote⟩) := by
  refine ⟨?_, ?_, ?_, ?_, ?_, ?_, ?_, ?_⟩
  · intro req key w msg d st h
    rcases compress_classify req key w with ⟨s, hs⟩ | ⟨msg', d', st', hs, hst⟩
    · have h2 := h.symm.trans hs
      simp at h2
    · have h2 := h.symm.trans hs
      simp only [HttpResp.mk.injEq] at h2
      obtain ⟨h21, _⟩ := h2
      omega
  · intro req key w b e hm hb hf hk hcreate
    simp only [compressHandler, hm, hb, hf, hk, hcreate, ne_eq, not_true,
      not_false_iff, if_false, if_true, Bool.not_eq_true, Bool.false_eq_true,
      ite_false, ite_true]
  · intro req key w b job form b64 e hm hb hf hk hsplit hcreate hform hup
    simp only [compressHandler, hm, hb, hf, hk, hsplit, hcreate, hform, hup, ne_eq,
      not_true, not_false_iff, if_false, if_true, Bool.not_eq_true, Bool.false_eq_true,
      ite_false, ite_true]
  · intro req key w b job form b64 errText hm hb hf hk hsplit hcreate hform hup
    simp only [compressHandler, hm, hb, hf, hk, hsplit, hcreate, hform, hup, ne_eq,
      not_true, not_false_iff, if_false, if_true, Bool.not_eq_true, Bool.false_eq_true,
      ite_false, ite_true]
  · intro req key w b job form up b64 k e hm hb hf hk hsplit hcreate hform hup hok
      hk1 hk30 hnt hp
    rw [compressHandler_good req key w b job form up b64 hm hb hf hk hsplit hcreate
      hform hup hok, runPoll_error_at w job.id k e hk1 hk30 hnt hp]
  · intro req key w b job form up b64 k pj hm hb hf hk hsplit hcreate hform hup hok
      hk1 hk30 hnt hp hfail
    rw [compressHandler_good req key w b job form up b64 hm hb hf hk hsplit hcreate
      hform hup hok, runPoll_failed_aux w job.id k pj hk1 hk30 hnt hp hfail]
  · intro req key w b job form up b64 N pj u e hm hb hf hk hsplit hcreate hform hup
      hok h1 h30 hnt hp hc hu hune hdl
    rw [compressHandler_good req key w b job form up b64 hm hb hf hk hsplit hcreate
      hform hup hok, runPoll_completes_aux w job.id N pj u h1 h30 hnt hp hc hu]
    simp [hune, hdl]
  · intro req tok w file? b64 e hm hb hf hk hsplit hg
    simp only [processHandler, hm, hb, hf, hk, hsplit, hg, ne_eq, not_true,
      not_false_iff, if_false, if_true, Bool.not_eq_true, Bool.false_eq_true,
      ite_false, ite_true]

/-- Witness for C1 amended: each remote-failure mode exercised at a
concrete mock world (thrown job creation, thrown upload, rejected
upload, thrown poll, remote-reported failure, thrown download), the
no-200-error-body part at one of those 500 responses, and the process
fallback at a failing inference call. -/
theorem remote_failure_status_split_witness :
    compressHandler cReq (some "key") mockCreateFail =
      ⟨500, .err "createJob ECONNREFUSED" none⟩ ∧
    compressHandler cReq (some "key") mockUploadThrow =
      ⟨500, .err "upload socket hang up" none⟩ ∧
    compressHandler cReq (some "key") (uploadFailWorld "boom") =
      ⟨500, .err "Failed to upload file to FreeConvert" (some (.text "boom"))⟩ ∧
    compressHandler cReq (some "key") mockPollThrow =
      ⟨500, .err "poll ECONNRESET" none⟩ ∧
    compressHandler cReq (some "key") mockFailsAt2 =
      ⟨500, .err "Compression failed" (some (.pollJson failedPJ))⟩ ∧
    compressHandler cReq (some "key") mockDownloadFail =
      ⟨500, .err "download ECONNRESET" none⟩ ∧
    (500 : Nat) ≠ 200 ∧
    processHandler pReq (some "hf-token") failingGradio =
      ⟨200, .fallback fallbackMsg fallbackMsg .null "Gradio client failed: connect error"
        fallbackNote⟩ :=
  ⟨remote_failure_status_split.2.1 cReq (some "key") mockCreateFail
     ⟨some "data:audio/mp3;base64,AAAA", none⟩ "createJob ECONNREFUSED"
     rfl rfl (by decide) (by decide) rfl,
   remote_failure_status_split.2.2.1 cReq (some "key") mockUploadThrow
     ⟨some "data:audio/mp3;base64,AAAA", none⟩ okJob okForm "AAAA".data
     "upload socket hang up" rfl rfl (by decide) (by decide) (by decide) rfl rfl rfl,
   remote_failure_status_split.2.2.2.1 cReq (some "key") (uploadFailWorld "boom")
     ⟨some "data:audio/mp3;base64,AAAA", none⟩ okJob okForm "AAAA".data "boom"
     rfl rfl (by decide) (by decide) (by decide) rfl rfl rfl,
   remote_failure_status_split.2.2.2.2.1 cReq (some "key") mockPollThrow
     ⟨some "data:audio/mp3;base64,AAAA", none⟩ okJob okForm okUpload "AAAA".data 1
     "poll ECONNRESET" rfl rfl (by decide) (by decide) (by decide) rfl rfl rfl rfl
     (by decide) (by decide) (fun i hi => absurd hi (by omega)) rfl,
   remote_failure_status_split.2.2.2.2.2.1 cReq (some "key") mockFailsAt2
     ⟨some "data:audio/mp3;base64,AAAA", none⟩ okJob okForm okUpload "AAAA".data 2
     failedPJ rfl rfl (by decide) (by decide) (by decide) rfl rfl rfl rfl
     (by decide) (by decide)
     (fun i hi => ⟨processingPJ, by
       have h0 : i = 0 := by omega
       subst h0; rfl, by decide, by decide⟩)
     (by decide) rfl,
   remote_failure_status_split.2.2.2.2.2.2.1 cReq (some "key") mockDownloadFail
     ⟨some "data:audio/mp3;base64,AAAA", none⟩ okJob okForm okUpload "AAAA".data 1
     completedPJ "https://dl.example/out.mp3" "download ECONNRESET"
     rfl rfl (by decide) (by decide) (by decide) rfl rfl rfl rfl
     (by decide) (by decide) (fun i hi => absurd hi (by omega)) rfl rfl rfl
     (by decide) rfl,
   remote_failure_status_split.1 cReq (some "key") mockCreateFail
     "createJob ECONNREFUSED" none 500 (by decide),
   remote_failure_status_split.2.2.2.2.2.2.2 pReq (some "hf-token") failingGradio
     (some "data:audio/wav;base64,AAAA") "AAAA".data "Gradio client failed: connect error"
     rfl rfl (by decide) (by decide) (by decide) rfl⟩

/-- C3: If the job service reports non-terminal statuses on the first
`N-1` poll fetches and `completed` (with an export URL present) on the
`N`-th (`1 ≤ N ≤ 30`), the poll loop finishes with that URL after exactly
`N` poll calls (`N` sleeps of 3000 ms), consults no later poll attempt,
and the workflow then succeeds with a 200 data-URL response. -/
theorem poll_completes_at_n (w : CompressWorld) (jid : String) (N : Nat)
    (pj : PollJob) (u : String) (h1 : 1 ≤ N) (h30 : N ≤ 30)
    (hnt : ∀ i, i < N - 1 → nonterminalAt w jid i)
    (hp : w.poll jid (N - 1) = .ok pj) (hc : pj.status = "completed")
    (hu : findExportUrl pj = some u) :
    runPoll w jid 30 "" "" 0 0 = .finished u N (pollIntervalMs * N) ∧
    (∀ w' : CompressWorld, (∀ i, i < N → w'.poll jid i = w.poll jid i) →
      runPoll w' jid 30 "" "" 0 0 = runPoll w jid 30 "" "" 0 0) ∧
    (∀ req key b job form up b64 bytes,
      req.method = "POST" → req.bodyParse = .ok b → jsTruthyStr b.file = true →
      jsTruthyStr key = true →
      (splitChar ',' ((b.file.getD "").data)).get? 1 = some b64 →
      w.createJob (mkInputBody (inputFormatOf b.fileType)) = .ok job →
      jobUploadForm job = some form →
      w.upload form.url form.parameters (bufferFromBase64 (String.mk b64))
        ("audio." ++ inputFormatOf b.fileType) = .ok up →
      up.ok = true → job.id = jid → u ≠ "" → w.download u = .ok bytes →
      compressHandler req key w =
        ⟨200, .fileOk ("data:audio/mp3;base64," ++ toBase64 bytes)⟩) := by
  obtain ⟨j, rfl⟩ : ∃ j, N = j + 1 := ⟨N - 1, by omega⟩
  have hj : j + 1 - 1 = j := by omega
  rw [hj] at hnt hp
  have hmain : runPoll w jid 30 "" "" 0 0 =
      .finished u (j + 1) (pollIntervalMs * (j + 1)) := by
    obtain ⟨s', hs', heq⟩ := runPoll_skip w jid j 30 "" "" 0 0 (by omega) (by decide)
      (fun i _ h2 => hnt i (by omega))
    simp only [Nat.zero_add] at heq
    rw [heq]
    obtain ⟨f, hf30⟩ : ∃ f, 30 - j = f + 1 := ⟨30 - j - 1, by omega⟩
    rw [hf30, runPoll_succ_ok w jid f s' "" j (pollIntervalMs * j) pj hs' hp, hc,
      if_pos rfl, hu]
    show runPoll w jid f "completed" u (j + 1) (pollIntervalMs * j + pollIntervalMs) = _
    rw [runPoll_completed]
    congr 1
  refine ⟨hmain, ?_, ?_⟩
  · intro w' hagree
    apply runPoll_depends
    intro i hi1 hi2
    apply hagree
    rw [hmain] at hi2
    simpa [LoopResult.polls] using hi2
  · intro req key b job form up b64 bytes hm hb hf hk hsplit hcreate hform hup hok
      hjid hune hdl
    rw [compressHandler_good req key w b job form up b64 hm hb hf hk hsplit hcreate
      hform hup hok, hjid, hmain]
    simp [hune, hdl]

/-- Witness for C3: a mock completing on attempt 2 is polled exactly
twice and the workflow responds 200 with the re-encoded download. -/
theorem poll_completes_at_n_witness :
    runPoll mockCompletesAt2 "job-1" 30 "" "" 0 0 =
      .finished "https://dl.example/out.mp3" 2 (pollIntervalMs * 2) ∧
    compressHandler cReq (some "key") mockCompletesAt2 =
      ⟨200, .fileOk ("data:audio/mp3;base64," ++ toBase64 [1, 2, 3])⟩ :=
  ⟨(poll_completes_at_n mockCompletesAt2 "job-1" 2 completedPJ "https://dl.example/out.mp3"
      (by decide) (by decide)
      (fun i hi => ⟨processingPJ, by
        have h0 : i = 0 := by omega
        subst h0; rfl, by decide, by decide⟩)
      (by decide) rfl rfl).1,
   (poll_completes_at_n mockCompletesAt2 "job-1" 2 completedPJ "https://dl.example/out.mp3"
      (by decide) (by decide)
      (fun i hi => ⟨processingPJ, by
        have h0 : i = 0 := by omega
        subst h0; rfl, by decide, by decide⟩)
      (by decide) rfl rfl).2.2 cReq (some "key")
      ⟨some "data:audio/mp3;base64,AAAA", none⟩ okJob okForm okUpload "AAAA".data [1, 2, 3]
      rfl rfl (by decide) (by decide) (by decide) rfl rfl rfl rfl rfl (by decide) rfl⟩

/-- C2 counterexample: the timeout outcome is not a distinct error kind —
a mock that never leaves `processing` and a mock that completes at once
without an export URL produce the very same `500 No export URL found`
response (the code has no separate `PollTimeoutError`). -/
theorem poll_timeout_same_error :
    compressHandler cReq (some "key") mockTimeout =
      compressHandler cReq (some "key") mockNoExportUrl ∧
    compressHandler cReq (some "key") mockTimeout =
      ⟨500, .err "No export URL found" none⟩ ∧
    (runPoll mockTimeout "job-1" 30 "" "" 0 0).polls = 30 ∧
    (runPoll mockNoExportUrl "job-1" 30 "" "" 0 0).polls = 1 :=
  ⟨by decide, by decide, by decide, by decide⟩

/-- C2 amended: when the job never reaches a terminal status, the poll
loop performs exactly 30 poll calls (90000 ms of sleep, about 90 time
units at 3 per attempt) and the workflow then fails — with the same
`500 No export URL found` response that is used when a completed job has
no export URL, not a distinct timeout kind. -/
theorem poll_timeout_thirty (w : CompressWorld) (jid : String)
    (hnt : ∀ i, i < 30 → nonterminalAt w jid i) :
    runPoll w jid 30 "" "" 0 0 = .finished "" 30 (pollIntervalMs * 30) ∧
    pollIntervalMs * 30 = 90000 ∧
    (∀ req key b job form up b64,
      req.method = "POST" → req.bodyParse = .ok b → jsTruthyStr b.file = true →
      jsTruthyStr key = true →
      (splitChar ',' ((b.file.getD "").data)).get? 1 = some b64 →
      w.createJob (mkInputBody (inputFormatOf b.fileType)) = .ok job →
      jobUploadForm job = some form →
      w.upload form.url form.parameters (bufferFromBase64 (String.mk b64))
        ("audio." ++ inputFormatOf b.fileType) = .ok up →
      up.ok = true → job.id = jid →
      compressHandler req key w = ⟨500, .err "No export URL found" none⟩) := by
  have hmain : runPoll w jid 30 "" "" 0 0 = .finished "" 30 (pollIntervalMs * 30) := by
    obtain ⟨s', hs', heq⟩ := runPoll_skip w jid 30 30 "" "" 0 0 (by omega) (by decide)
      (fun i _ h2 => hnt i (by omega))
    simp only [Nat.zero_add, Nat.sub_self] at heq
    rw [heq]
    rfl
  refine ⟨hmain, by decide, ?_⟩
  intro req key b job form up b64 hm hb hf hk hsplit hcreate hform hup hok hjid
  rw [compressHandler_good req key w b job form up b64 hm hb hf hk hsplit hcreate
    hform hup hok, hjid, hmain]
  rfl

/-- Witness for C2 amended at the concrete always-processing mock. -/
theorem poll_timeout_thirty_witness :
    runPoll mockTimeout "job-1" 30 "" "" 0 0 = .finished "" 30 (pollIntervalMs * 30) ∧
    compressHandler cReq (some "key") mockTimeout =
      ⟨500, .err "No export URL found" none⟩ :=
  ⟨(poll_timeout_thirty mockTimeout "job-1"
      (fun i hi => ⟨processingPJ, rfl, by decide, by decide⟩)).1,
   (poll_timeout_thirty mockTimeout "job-1"
      (fun i hi => ⟨processingPJ, rfl, by decide, by decide⟩)).2.2 cReq (some "key")
      ⟨some "data:audio/mp3;base64,AAAA", none⟩ okJob okForm okUpload "AAAA".data
      rfl rfl (by decide) (by decide) (by decide) rfl rfl rfl rfl rfl⟩

/-- C6 counterexample: the remote diagnostic body embedded in the compress
handler's upload-failure `details` is not bounded by any length — for
every candidate bound there is a remote body whose embedded copy exceeds
it. -/
theorem error_details_unbounded :
    ¬ ∃ B : Nat, ∀ errText : String,
      respDetailTextLen (compressHandler cReq (some "key") (uploadFailWorld errText)) ≤ B := by
  rintro ⟨B, hB⟩
  have h := hB (String.mk (List.replicate (B + 1) 'x'))
  have heval : ∀ s : String, compressHandler cReq (some "key") (uploadFailWorld s) =
      ⟨500, .err "Failed to upload file to FreeConvert" (some (.text s))⟩ := fun s => rfl
  rw [heval] at h
  have hlen : (String.mk (List.replicate (B + 1) 'x')).length = B + 1 := by
    show (List.replicate (B + 1) 'x').length = B + 1
    simp
  simp only [respDetailTextLen, hlen] at h
  omega

/-- C6 amended: the compress handler embeds the raw remote diagnostic
body in its error `details` untruncated (the upload-failure details are
the whole remote body text, whatever its length); only the process
handler truncates the remote rendering it embeds, to 200 characters plus
a fixed message and ellipsis. -/
theorem error_details_untruncated :
    (∀ req key w b job form errText b64,
      req.method = "POST" → req.bodyParse = .ok b → jsTruthyStr b.file = true →
      jsTruthyStr key = true →
      (splitChar ',' ((b.file.getD "").data)).get? 1 = some b64 →
      w.createJob (mkInputBody (inputFormatOf b.fileType)) = .ok job →
      jobUploadForm job = some form →
      w.upload form.url form.parameters (bufferFromBase64 (String.mk b64))
        ("audio." ++ inputFormatOf b.fileType) = .ok ⟨false, .ok errText⟩ →
      compressHandler req key w =
        ⟨500, .err "Failed to upload file to FreeConvert" (some (.text errText))⟩) ∧
    (∀ v : GValue, (unexpectedMsg v).length ≤
      "Unexpected response format from CleanSong API: ".length + 203) := by
  constructor
  · intro req key w b job form errText b64 hm hb hf hk hsplit hcreate hform hup
    simp only [compressHandler, hm, hb, hf, hk, hsplit, hcreate, hform, hup, ne_eq,
      not_true, not_false_iff, if_false, if_true, Bool.not_eq_true, Bool.false_eq_true,
      ite_false, ite_true]
  · intro v
    unfold unexpectedMsg
    rw [string_length_append, string_length_append]
    have h1 : (jsSubstring0 (stringifyG v) 200).length ≤ 200 := by
      show ((stringifyG v).data.take 200).length ≤ 200
      rw [List.length_take]
      omega
    have h3 : ("..." : String).length = 3 := rfl
    omega

/-- Witness for C6 amended at a concrete rejected upload and a concrete
unexpected response value. -/
theorem error_details_untruncated_witness :
    compressHandler cReq (some "key") (uploadFailWorld "boom") =
      ⟨500, .err "Failed to upload file to FreeConvert" (some (.text "boom"))⟩ ∧
    (unexpectedMsg .null).length ≤
      "Unexpected response format from CleanSong API: ".length + 203 :=
  ⟨error_details_untruncated.1 cReq (some "key") (uploadFailWorld "boom")
     ⟨some "data:audio/mp3;base64,AAAA", none⟩ okJob okForm "boom" "AAAA".data
     rfl rfl (by decide) (by decide) (by decide) rfl rfl rfl,
   error_details_untruncated.2 .null⟩

/-- C8 counterexample: for a file field with no comma (not a data URL),
the compress handler — whose decode is not guarded — responds 500 (the
decode `TypeError` reaches the generic catch), not 400. -/
theorem malformed_file_500 :
    compressHandler malformedReq (some "key") mockTimeout =
      ⟨500, .err bufferFromUndefinedMsg none⟩ ∧
    (compressHandler malformedReq (some "key") mockTimeout).status ≠ 400 :=
  ⟨by decide, by decide⟩

/-- C8 amended: on a malformed file field (no comma, so no base64 payload
to extract), the process handler — whose decode is guarded — responds
`400 Invalid file encoding`, while the compress handler responds 500 via
its generic catch (after having already created the remote job). -/
theorem malformed_file_status :
    (∀ req tok w f, req.method = "POST" → req.bodyParse = .ok f →
      jsTruthyStr f = true → jsTruthyStr tok = true →
      (splitChar ',' ((f.getD "").data)).get? 1 = none →
      processHandler req tok w = ⟨400, .err "Invalid file encoding"⟩) ∧
    (∀ req key w b job form, req.method = "POST" → req.bodyParse = .ok b →
      jsTruthyStr b.file = true → jsTruthyStr key = true →
      w.createJob (mkInputBody (inputFormatOf b.fileType)) = .ok job →
      jobUploadForm job = some form →
      (splitChar ',' ((b.file.getD "").data)).get? 1 = none →
      compressHandler req key w = ⟨500, .err bufferFromUndefinedMsg none⟩) := by
  constructor
  · intro req tok w f hm hb hf hk hsplit
    simp only [processHandler, hm, hb, hf, hk, hsplit, ne_eq, not_true, not_false_iff,
      if_false, if_true, Bool.not_eq_true, Bool.false_eq_true, ite_false, ite_true]
  · intro req key w b job form hm hb hf hk hcreate hform hsplit
    simp only [compressHandler, hm, hb, hf, hk, hcreate, hform, hsplit, ne_eq,
      not_true, not_false_iff, if_false, if_true, Bool.not_eq_true, Bool.false_eq_true,
      ite_false, ite_true]

/-- Witness for C8 amended at concrete malformed requests. -/
theorem malformed_file_status_witness :
    processHandler ⟨"POST", .ok (some "notadataurl")⟩ (some "hf-token") failingGradio =
      ⟨400, .err "Invalid file encoding"⟩ ∧
    compressHandler malformedReq (some "key") mockTimeout =
      ⟨500, .err bufferFromUndefinedMsg none⟩ :=
  ⟨malformed_file_status.1 ⟨"POST", .ok (some "notadataurl")⟩ (some "hf-token")
     failingGradio (some "notadataurl") rfl rfl (by decide) (by decide) (by decide),
   malformed_file_status.2 malformedReq (some "key") mockTimeout
     ⟨some "notadataurl", none⟩ okJob okForm rfl rfl (by decide) (by decide) rfl rfl
     (by decide)⟩

/-- C7: For a canonical base64 payload (the encoding of some byte list),
decoding it as the compress handler does before upload and re-encoding
the same bytes as the handler does for its response yields back the
original payload; accordingly, with a byte-identical passthrough remote,
the handler's 200 response carries exactly the original payload. -/
theorem base64_roundtrip_passthrough (bytes : List Nat) (h : ∀ x ∈ bytes, x < 256) :
    toBase64 (bufferFromBase64 (toBase64 bytes)) = toBase64 bytes ∧
    compressHandler
        ⟨"POST", .ok ⟨some ("data:audio/mp3;base64," ++ toBase64 bytes), none⟩⟩
        (some "key") (passthroughWorld (toBase64 bytes)) =
      ⟨200, .fileOk ("data:audio/mp3;base64," ++ toBase64 bytes)⟩ := by
  have hrt := bufferFromBase64_toBase64 bytes h
  have hne : jsTruthyStr (some ("data:audio/mp3;base64," ++ toBase64 bytes)) = true := by
    simp only [jsTruthyStr, ne_eq, decide_eq_true_eq]
    intro hcon
    have hd := congrArg String.data hcon
    rw [string_data_append] at hd
    simp at hd
  have hsplit : (splitChar ','
      (((some ("data:audio/mp3;base64," ++ toBase64 bytes)).getD "").data)).get? 1 =
      some (encodeB64 bytes) := by
    show (splitChar ',' (("data:audio/mp3;base64," ++ toBase64 bytes).data)).get? 1 = _
    rw [string_data_append]
    have hpre : ("data:audio/mp3;base64,").data = "data:audio/mp3;base64".data ++ [','] := by
      decide
    have hdata : (toBase64 bytes).data = encodeB64 bytes := rfl
    rw [hpre, hdata, List.append_assoc, List.singleton_append,
      splitChar_append_sep _ _ _ (by decide),
      splitChar_no_sep _ _ (comma_not_mem_encodeB64 bytes h)]
    rfl
  have hgood := compressHandler_good
    ⟨"POST", .ok ⟨some ("data:audio/mp3;base64," ++ toBase64 bytes), none⟩⟩ (some "key")
    (passthroughWorld (toBase64 bytes))
    ⟨some ("data:audio/mp3;base64," ++ toBase64 bytes), none⟩
    okJob okForm okUpload (encodeB64 bytes) rfl rfl hne (by decide) hsplit rfl rfl rfl rfl
  refine ⟨by rw [hrt], ?_⟩
  rw [hgood]
  have hpoll : runPoll (passthroughWorld (toBase64 bytes)) okJob.id 30 "" "" 0 0 =
      .finished "https://dl.example/out.mp3" 1 3000 := rfl
  rw [hpoll]
  show (⟨200, .fileOk
      ("data:audio/mp3;base64," ++ toBase64 (bufferFromBase64 (toBase64 bytes)))⟩ : HttpResp) = _
  rw [hrt]

/-- Witness for C7 at the concrete byte list `[0, 1, 2]` (payload
`AAEC`). -/
theorem base64_roundtrip_passthrough_witness :
    (∀ x ∈ [0, 1, 2], x < 256) ∧
    toBase64 (bufferFromBase64 (toBase64 [0, 1, 2])) = toBase64 [0, 1, 2] ∧
    compressHandler
        ⟨"POST", .ok ⟨some ("data:audio/mp3;base64," ++ toBase64 [0, 1, 2]), none⟩⟩
        (some "key") (passthroughWorld (toBase64 [0, 1, 2])) =
      ⟨200, .fileOk ("data:audio/mp3;base64," ++ toBase64 [0, 1, 2])⟩ :=
  ⟨by decide, (base64_roundtrip_passthrough [0, 1, 2] (by decide)).1,
   (base64_roundtrip_passthrough [0, 1, 2] (by decide)).2⟩

end CleanSongProxy
